import Mathlib

/-!
Shallow embedding of the getninjas-contact-sheets customer-intake core:
the validators and formatters of `src/lib/validations.ts`, the server
actions of `src/app/actions.ts` (register / list / update / delete against
the spreadsheet row store), and the form submit flow of `src/app/page.tsx`.

Spreadsheet cells are modelled as `Option String` (a missing cell is
`none`, matching `row.get(...)` returning `undefined`).  JavaScript's
`Number.parseInt` is modelled over `Option Int` with `none` standing for
`NaN`.  Dates are passed in as an explicit `today` string (the code stamps
`new Date().toLocaleDateString("pt-BR")`).
-/

namespace ContactSheets

/-- Result object returned by every validator in `src/lib/validations.ts`. -/
structure ValidationResult where
  isValid : Bool
  message : Option String := none
deriving DecidableEq, Repr

/-- Character class `[^\s@]` used by the email regex. -/
def emailChar (c : Char) : Bool :=
  !c.isWhitespace && c != '@'

/-- Test of the anchored regex `/^[^\s@]+@[^\s@]+\.[^\s@]+$/` from
`validateEmail`: a non-empty run of `emailChar`s, an `@`, then a tail that
is all `emailChar`s and contains a dot that is neither its first nor its
last character (which is exactly when the tail splits as
`[^\s@]+ . [^\s@]+`). -/
def emailRegexTest (s : String) : Bool :=
  let l := s.toList
  let a := l.takeWhile (fun c => c != '@')
  match l.dropWhile (fun c => c != '@') with
  | '@' :: tail =>
      !a.isEmpty && a.all emailChar && tail.all emailChar &&
        ((tail.drop 1).dropLast.contains '.')
  | _ => false

/-- `validateEmail` from `src/lib/validations.ts`. -/
def validateEmail (email : String) : ValidationResult :=
  if email = "" then { isValid := false, message := some "Email é obrigatório" }
  else if !emailRegexTest email then
    { isValid := false, message := some "Formato de email inválido" }
  else { isValid := true }

/-- Digit filtering on char lists; `s.replace(/\D/g, "")` keeps exactly the
ASCII decimal digits. -/
def stripDigitsL (l : List Char) : List Char :=
  l.filter Char.isDigit

/-- String form of `stripDigitsL` (the `replace(/\D/g, "")` idiom). -/
def stripDigits (s : String) : String :=
  String.mk (stripDigitsL s.toList)

/-- `validatePhone` from `src/lib/validations.ts`. -/
def validatePhone (phone : String) : ValidationResult :=
  if phone = "" then { isValid := false, message := some "Telefone é obrigatório" }
  else
    let cleanPhone := stripDigitsL phone.toList
    if cleanPhone.length < 10 || cleanPhone.length > 11 then
      { isValid := false, message := some "Telefone deve ter 10 ou 11 dígitos" }
    else { isValid := true }

/-- Test of the anchored regex `/^\d{5}-?\d{3}$/` from `validateCEP`:
either eight digits, or five digits, a hyphen, and three digits. -/
def cepRegexTest (s : String) : Bool :=
  let l := s.toList
  (l.length = 8 && l.all Char.isDigit) ||
    (l.length = 9 && (l.take 5).all Char.isDigit && l.get? 5 = some '-' &&
      (l.drop 6).all Char.isDigit)

/-- `validateCEP` from `src/lib/validations.ts` (empty input is valid: the
field is optional). -/
def validateCEP (cep : String) : ValidationResult :=
  if cep = "" then { isValid := true }
  else if !cepRegexTest cep then
    { isValid := false, message := some "CEP deve ter o formato 12345-678" }
  else { isValid := true }

/-- `validateName` from `src/lib/validations.ts`. -/
def validateName (name : String) : ValidationResult :=
  if name = "" then { isValid := false, message := some "Nome é obrigatório" }
  else if name.length < 2 then
    { isValid := false, message := some "Nome deve ter pelo menos 2 caracteres" }
  else if name.length > 100 then
    { isValid := false, message := some "Nome deve ter no máximo 100 caracteres" }
  else { isValid := true }

/-- The 11-digit rendering `($1) $2-$3` of
`cleaned.replace(/(\d{2})(\d{5})(\d{4})/, ...)`: groups are the first two,
next five, and last four digits. -/
def phoneFormat11 (c : List Char) : List Char :=
  '(' :: c.take 2 ++ ')' :: ' ' :: (c.drop 2).take 5 ++ '-' :: c.drop 7

/-- The 10-digit rendering `($1) $2-$3` of
`cleaned.replace(/(\d{2})(\d{4})(\d{4})/, ...)`. -/
def phoneFormat10 (c : List Char) : List Char :=
  '(' :: c.take 2 ++ ')' :: ' ' :: (c.drop 2).take 4 ++ '-' :: c.drop 6

/-- `formatPhone` from `src/lib/validations.ts`: strip non-digits; render
11 digits as `(DD) DDDDD-DDDD`, 10 digits as `(DD) DDDD-DDDD`, anything
else is returned unchanged. -/
def formatPhone (phone : String) : String :=
  if (stripDigitsL phone.toList).length = 11 then
    String.mk (phoneFormat11 (stripDigitsL phone.toList))
  else if (stripDigitsL phone.toList).length = 10 then
    String.mk (phoneFormat10 (stripDigitsL phone.toList))
  else phone

/-- `formatCEP` from `src/lib/validations.ts`: strip non-digits; render
exactly 8 digits as `DDDDD-DDD`, anything else unchanged. -/
def formatCEP (cep : String) : String :=
  if (stripDigitsL cep.toList).length = 8 then
    String.mk ((stripDigitsL cep.toList).take 5 ++ '-' :: (stripDigitsL cep.toList).drop 5)
  else cep

/-- Hex-digit test for JavaScript's `parseInt` with a `0x` prefix. -/
def isHexDigitChar (c : Char) : Bool :=
  c.isDigit || ('a'.toNat ≤ c.toNat && c.toNat ≤ 'f'.toNat) ||
    ('A'.toNat ≤ c.toNat && c.toNat ≤ 'F'.toNat)

/-- Numeric value of a (hex) digit character. -/
def hexDigitVal (c : Char) : Nat :=
  if c.isDigit then c.toNat - '0'.toNat
  else if 'a'.toNat ≤ c.toNat && c.toNat ≤ 'f'.toNat then c.toNat - 'a'.toNat + 10
  else c.toNat - 'A'.toNat + 10

/-- Value of a digit list in the given base. -/
def natOfDigits (base : Nat) (l : List Char) : Nat :=
  l.foldl (fun acc c => acc * base + hexDigitVal c) 0

/-- JavaScript `Number.parseInt(s)` (no explicit radix): skip leading
whitespace, read an optional sign, detect a `0x`/`0X` prefix (base 16,
else base 10), and parse the longest digit run that follows, ignoring any
trailing garbage.  `none` stands for `NaN` (no digits at all).
`Char.isWhitespace` approximates the JS `StrWhiteSpace` class. -/
def jsParseInt (s : String) : Option Int :=
  let l := s.toList.dropWhile Char.isWhitespace
  let signRest : Int × List Char :=
    match l with
    | '-' :: rest => (-1, rest)
    | '+' :: rest => (1, rest)
    | _ => (1, l)
  let digitsBase : List Char × Nat :=
    match signRest.2 with
    | '0' :: 'x' :: tail => (tail.takeWhile isHexDigitChar, 16)
    | '0' :: 'X' :: tail => (tail.takeWhile isHexDigitChar, 16)
    | _ => (signRest.2.takeWhile Char.isDigit, 10)
  if digitsBase.1.isEmpty then none
  else some (signRest.1 * (natOfDigits digitsBase.2 digitsBase.1 : Int))

/-- `Number.parseInt` applied to a cell read with `row.get(...)`: a
missing cell is `undefined`, which `parseInt` turns into `NaN` (`none`). -/
def jsParseIntCell (c : Option String) : Option Int :=
  match c with
  | none => none
  | some s => jsParseInt s

/-- One spreadsheet row of the "Cadastro de Clientes" sheet, one field per
column header used by `src/app/actions.ts`; a cell may be absent. -/
structure SheetRow where
  id : Option String
  customerCode : Option String
  nome : Option String
  email : Option String
  telefone : Option String
  endereco : Option String
  cidade : Option String
  estado : Option String
  cep : Option String
  fonteAquisicao : Option String
  tipoServico : Option String
  realizado : Option String
  observacoes : Option String
  dataRegistro : Option String
deriving DecidableEq, Repr

/-- A row with every cell absent (base value for concrete examples). -/
def blankRow : SheetRow :=
  { id := none, customerCode := none, nome := none, email := none,
    telefone := none, endereco := none, cidade := none, estado := none,
    cep := none, fonteAquisicao := none, tipoServico := none,
    realizado := none, observacoes := none, dataRegistro := none }

/-- `CustomerRegistrationData` from `src/app/actions.ts`. -/
structure CustomerRegistrationData where
  customerCode : String
  fullName : String
  email : String
  phone : String
  address : String
  city : String
  state : String
  zipCode : String
  acquisitionSource : String
  serviceType : String
  isCompleted : Bool
  observations : String
deriving DecidableEq, Repr

/-- `CustomerData` from `src/app/actions.ts` (registration data plus the
reconstructed id and registration date). -/
structure CustomerData where
  id : Int
  customerCode : String
  fullName : String
  email : String
  phone : String
  address : String
  city : String
  state : String
  zipCode : String
  acquisitionSource : String
  serviceType : String
  isCompleted : Bool
  observations : String
  registrationDate : String
deriving DecidableEq, Repr

/-- `Partial<CustomerRegistrationData>`: every field optional (an absent
field is `undefined`). -/
structure PartialCustomerData where
  customerCode : Option String := none
  fullName : Option String := none
  email : Option String := none
  phone : Option String := none
  address : Option String := none
  city : Option String := none
  state : Option String := none
  zipCode : Option String := none
  acquisitionSource : Option String := none
  serviceType : Option String := none
  isCompleted : Option Bool := none
  observations : Option String := none
deriving DecidableEq, Repr

/-- Success shape returned by `registerCustomer` (the backend-assigned
`rowNumber` of the remote sheet is not modelled). -/
structure RegisterResult where
  success : Bool
  message : String
  customerId : Nat
deriving DecidableEq, Repr

/-- Uniform result shape of `updateCustomer` / `deleteCustomer`. -/
structure OpResult where
  success : Bool
  message : String
  error : Option String
deriving DecidableEq, Repr

/-- `registerCustomer` from `src/app/actions.ts`, happy path (backend and
configuration failures are outside the model): computes
`nextId = rows.length + 1`, appends the full row — phone passed through
`formatPhone`, completion flag stored as `"S"`/`"N"`, `Data de Registro`
stamped with the current locale-formatted date, passed here as `today` —
and returns success carrying `customerId = nextId`. -/
def registerCustomer (store : List SheetRow) (data : CustomerRegistrationData)
    (today : String) : RegisterResult × List SheetRow :=
  let nextId := store.length + 1
  let newRow : SheetRow :=
    { id := some (toString nextId),
      customerCode := some data.customerCode,
      nome := some data.fullName,
      email := some data.email,
      telefone := some (formatPhone data.phone),
      endereco := some data.address,
      cidade := some data.city,
      estado := some data.state,
      cep := some data.zipCode,
      fonteAquisicao := some data.acquisitionSource,
      tipoServico := some data.serviceType,
      realizado := some (if data.isCompleted then "S" else "N"),
      observacoes := some data.observations,
      dataRegistro := some today }
  ({ success := true,
     message := "Cliente " ++ data.fullName ++ " cadastrado com sucesso!",
     customerId := nextId }, store ++ [newRow])

/-- Reconstruction of one `CustomerData` from a row at a given zero-based
position, from the `rows.map((row, index) => ...)` body of `getCustomers`:
`id: Number.parseInt(row.get("ID")) || index + 1` falls back to
`index + 1` whenever `parseInt` yields a falsy value (`NaN`, `0`, `-0`);
text cells default to `""`; `isCompleted` is `row.get("Realizado") === "S"`. -/
def reconstructRow (index : Nat) (r : SheetRow) : CustomerData :=
  { id := match jsParseIntCell r.id with
      | some n => if n = 0 then ((index : Int) + 1) else n
      | none => (index : Int) + 1,
    customerCode := r.customerCode.getD "",
    fullName := r.nome.getD "",
    email := r.email.getD "",
    phone := r.telefone.getD "",
    address := r.endereco.getD "",
    city := r.cidade.getD "",
    state := r.estado.getD "",
    zipCode := r.cep.getD "",
    acquisitionSource := r.fonteAquisicao.getD "",
    serviceType := r.tipoServico.getD "",
    isCompleted := r.realizado == some "S",
    observations := r.observacoes.getD "",
    registrationDate := r.dataRegistro.getD "" }

/-- Index-carrying map underlying `getCustomers`. -/
def getCustomersFrom (index : Nat) : List SheetRow → List CustomerData
  | [] => []
  | r :: rs => reconstructRow index r :: getCustomersFrom (index + 1) rs

/-- `getCustomers` from `src/app/actions.ts`, happy path: one
`CustomerData` per row, in row order. -/
def getCustomers (store : List SheetRow) : List CustomerData :=
  getCustomersFrom 0 store

/-- The row-locating predicate of `updateCustomer` / `deleteCustomer`:
`Number.parseInt(row.get("ID")) === id` (strict equality; `NaN` matches
nothing). -/
def pMatch (id : Int) (r : SheetRow) : Bool :=
  jsParseIntCell r.id == some id

/-- The field-by-field mutation block of `updateCustomer`: each field
present in the partial data overwrites its column (`Telefone` through
`formatPhone`, `Realizado` as `"S"`/`"N"`); the JS code runs one guarded
`set` per distinct field, modelled as a simultaneous record update.  Note
that `customerCode` has no corresponding `set`. -/
def applyUpdate (data : PartialCustomerData) (r : SheetRow) : SheetRow :=
  { r with
    nome := match data.fullName with | some v => some v | none => r.nome,
    email := match data.email with | some v => some v | none => r.email,
    telefone := match data.phone with
      | some v => some (formatPhone v) | none => r.telefone,
    endereco := match data.address with | some v => some v | none => r.endereco,
    cidade := match data.city with | some v => some v | none => r.cidade,
    estado := match data.state with | some v => some v | none => r.estado,
    cep := match data.zipCode with | some v => some v | none => r.cep,
    fonteAquisicao := match data.acquisitionSource with
      | some v => some v | none => r.fonteAquisicao,
    tipoServico := match data.serviceType with
      | some v => some v | none => r.tipoServico,
    realizado := match data.isCompleted with
      | some b => some (if b then "S" else "N") | none => r.realizado,
    observacoes := match data.observations with
      | some v => some v | none => r.observacoes }

/-- Replace the first element satisfying `p` (the row returned by
`rows.find`, mutated in place and saved). -/
def updateFirst (p : α → Bool) (f : α → α) : List α → List α
  | [] => []
  | x :: xs => if p x then f x :: xs else x :: updateFirst p f xs

/-- Remove the first element satisfying `p` (the row returned by
`rows.find`, then `row.delete()`). -/
def removeFirst (p : α → Bool) : List α → List α
  | [] => []
  | x :: xs => if p x then xs else x :: removeFirst p xs

/-- `updateCustomer` from `src/app/actions.ts`, happy path: locate the
first row whose `ID` parses to `id`; if none, the thrown
"Cliente não encontrado" is caught and returned as a failure with the
store untouched; otherwise apply the guarded field updates to that row. -/
def updateCustomer (store : List SheetRow) (id : Int)
    (data : PartialCustomerData) : OpResult × List SheetRow :=
  match store.find? (pMatch id) with
  | none =>
      ({ success := false, message := "Falha ao atualizar cliente",
         error := some "Cliente não encontrado" }, store)
  | some _ =>
      ({ success := true, message := "Cliente atualizado com sucesso!",
         error := none },
       updateFirst (pMatch id) (applyUpdate data) store)

/-- `deleteCustomer` from `src/app/actions.ts`, happy path: locate the
first row whose `ID` parses to `id`; if none, failure with the store
untouched; otherwise remove that row and echo its `Nome` cell in the
message (a missing cell interpolates as the string `"undefined"`). -/
def deleteCustomer (store : List SheetRow) (id : Int) :
    OpResult × List SheetRow :=
  match store.find? (pMatch id) with
  | none =>
      ({ success := false, message := "Falha ao excluir cliente",
         error := some "Cliente não encontrado" }, store)
  | some row =>
      ({ success := true,
         message := "Cliente " ++ row.nome.getD "undefined" ++ " excluído com sucesso!",
         error := none },
       removeFirst (pMatch id) store)

/-- The form state of `src/app/page.tsx` (its local `CustomerData`
interface: the registration fields minus the generated customer code). -/
structure CustomerFormData where
  fullName : String
  email : String
  phone : String
  address : String
  city : String
  state : String
  zipCode : String
  acquisitionSource : String
  serviceType : String
  isCompleted : Bool
  observations : String
deriving DecidableEq, Repr

/-- `validateField` of `src/app/page.tsx` for each validated field:
`null` (`none`) when the field's validator passes, otherwise the
validator's message. -/
def fieldError (v : ValidationResult) : Option String :=
  if v.isValid then none else v.message

/-- The per-field error map produced by `validateForm` in
`src/app/page.tsx` (only the four validated fields ever get an entry). -/
structure FormErrors where
  fullName : Option String
  email : Option String
  phone : Option String
  zipCode : Option String
deriving DecidableEq, Repr

/-- Errors computed by `validateForm`: name, email, phone and postal code
each run through their validator via `validateField`. -/
def formErrors (f : CustomerFormData) : FormErrors :=
  { fullName := fieldError (validateName f.fullName),
    email := fieldError (validateEmail f.email),
    phone := fieldError (validatePhone f.phone),
    zipCode := fieldError (validateCEP f.zipCode) }

/-- Boolean result of `validateForm`: true exactly when none of the four
validated fields produced an error. -/
def formIsValid (f : CustomerFormData) : Bool :=
  (formErrors f).fullName.isNone && (formErrors f).email.isNone &&
    (formErrors f).phone.isNone && (formErrors f).zipCode.isNone

/-- Registration payload built by `handleSubmit`:
`{ customerCode: newCustomerCode, ...formData }`. -/
def toRegistration (code : String) (f : CustomerFormData) :
    CustomerRegistrationData :=
  { customerCode := code, fullName := f.fullName, email := f.email,
    phone := f.phone, address := f.address, city := f.city,
    state := f.state, zipCode := f.zipCode,
    acquisitionSource := f.acquisitionSource, serviceType := f.serviceType,
    isCompleted := f.isCompleted, observations := f.observations }

/-- Outcome of a form submission in `src/app/page.tsx`. -/
inductive SubmitOutcome where
  | notConnected : SubmitOutcome
  | invalidForm (errors : FormErrors) : SubmitOutcome
  | registered (result : RegisterResult) : SubmitOutcome
deriving DecidableEq, Repr

/-- `handleSubmit` of `src/app/page.tsx`: abort if the connection test has
not succeeded; otherwise run `validateForm` and abort — without calling
`registerCustomer` — if it fails; otherwise register the generated code
plus the form data. -/
def handleSubmit (connected : Bool) (store : List SheetRow)
    (form : CustomerFormData) (code today : String) :
    SubmitOutcome × List SheetRow :=
  if !connected then (.notConnected, store)
  else if !formIsValid form then (.invalidForm (formErrors form), store)
  else
    let r := registerCustomer store (toRegistration code form) today
    (.registered r.1, r.2)

theorem toList_mk (l : List Char) : (String.mk l).toList = l := rfl

theorem length_mk (l : List Char) : (String.mk l).length = l.length := rfl

theorem stripDigits_length (s : String) :
    (stripDigits s).length = (stripDigitsL s.toList).length := rfl

theorem stripDigitsL_all (l : List Char) :
    ∀ a ∈ stripDigitsL l, a.isDigit = true :=
  fun a ha => (List.mem_filter.mp ha).2

theorem stripDigitsL_of_all {c : List Char} (h : ∀ a ∈ c, a.isDigit = true) :
    stripDigitsL c = c :=
  List.filter_eq_self.mpr h

theorem filter_digit_cons_nondigit {c : Char} (hc : c.isDigit = false)
    (l : List Char) : (c :: l).filter Char.isDigit = l.filter Char.isDigit := by
  simp [List.filter_cons, hc]

theorem strip_phoneFormatAux (k m : Nat) (hm : 2 + k = m) {c : List Char}
    (h : ∀ a ∈ c, a.isDigit = true) :
    stripDigitsL ('(' :: c.take 2 ++ ')' :: ' ' :: (c.drop 2).take k ++ '-' :: c.drop m) = c := by
  subst hm
  have h2 : ∀ a ∈ c.take 2, a.isDigit = true :=
    fun a ha => h a (List.mem_of_mem_take ha)
  have h3 : ∀ a ∈ (c.drop 2).take k, a.isDigit = true :=
    fun a ha => h a (List.mem_of_mem_drop (List.mem_of_mem_take ha))
  have h4 : ∀ a ∈ c.drop (2 + k), a.isDigit = true :=
    fun a ha => h a (List.mem_of_mem_drop ha)
  have hpo : ('(').isDigit = false := rfl
  have hpc : (')').isDigit = false := rfl
  have hsp : (' ').isDigit = false := rfl
  have hhy : ('-').isDigit = false := rfl
  simp only [stripDigitsL, List.filter_append, List.filter_cons, hpo, hpc,
    hsp, hhy, Bool.false_eq_true, if_false]
  rw [List.filter_eq_self.mpr h2, List.filter_eq_self.mpr h3,
    List.filter_eq_self.mpr h4, List.append_assoc,
    show c.drop (2 + k) = (c.drop 2).drop k from (List.drop_drop k 2 c).symm,
    List.take_append_drop, List.take_append_drop]

theorem strip_phoneFormat11 {c : List Char} (h : ∀ a ∈ c, a.isDigit = true) :
    stripDigitsL (phoneFormat11 c) = c :=
  strip_phoneFormatAux 5 7 rfl h

theorem strip_phoneFormat10 {c : List Char} (h : ∀ a ∈ c, a.isDigit = true) :
    stripDigitsL (phoneFormat10 c) = c :=
  strip_phoneFormatAux 4 6 rfl h

/-- Declarative reading of the claimed postal-code pattern: five digits,
an optional hyphen, and three digits, anchored at both ends. -/
def cepSpecPattern (s : String) : Prop :=
  ∃ a b : List Char, a.length = 5 ∧ b.length = 3 ∧
    (∀ c ∈ a, c.isDigit = true) ∧ (∀ c ∈ b, c.isDigit = true) ∧
    (s.toList = a ++ b ∨ s.toList = a ++ '-' :: b)

theorem cepRegexTest_iff (s : String) :
    cepRegexTest s = true ↔ cepSpecPattern s := by
  unfold cepRegexTest cepSpecPattern
  constructor
  · intro h
    simp only [Bool.or_eq_true, Bool.and_eq_true, decide_eq_true_eq,
      List.all_eq_true] at h
    rcases h with ⟨h8, hall⟩ | ⟨⟨⟨h9, ht⟩, hg⟩, hdr⟩
    · refine ⟨s.toList.take 5, s.toList.drop 5, ?_, ?_, ?_, ?_, Or.inl ?_⟩
      · rw [List.length_take, h8]; decide
      · rw [List.length_drop, h8]
      · exact fun a ha => hall a (List.mem_of_mem_take ha)
      · exact fun a ha => hall a (List.mem_of_mem_drop ha)
      · exact (List.take_append_drop 5 s.toList).symm
    · have h5 : 5 < s.toList.length := by omega
      have hget : s.toList[5] = '-' := by
        have h1 : s.toList[5]? = some (s.toList[5]) := List.getElem?_eq_getElem h5
        rw [← List.get?_eq_getElem?, hg] at h1
        exact (Option.some.inj h1).symm
      refine ⟨s.toList.take 5, s.toList.drop 6, ?_, ?_, ht, hdr, Or.inr ?_⟩
      · rw [List.length_take, h9]; decide
      · rw [List.length_drop, h9]
      · calc s.toList = s.toList.take 5 ++ s.toList.drop 5 :=
              (List.take_append_drop 5 s.toList).symm
          _ = s.toList.take 5 ++ '-' :: s.toList.drop 6 := by
              rw [List.drop_eq_getElem_cons h5, hget]
  · rintro ⟨a, b, ha5, hb3, hda, hdb, h | h⟩
    · apply Bool.or_eq_true_iff.mpr
      left
      simp only [Bool.and_eq_true, decide_eq_true_eq, List.all_eq_true]
      refine ⟨by rw [h, List.length_append, ha5, hb3], ?_⟩
      intro x hx
      rw [h] at hx
      rcases List.mem_append.mp hx with hx | hx
      · exact hda x hx
      · exact hdb x hx
    · apply Bool.or_eq_true_iff.mpr
      right
      simp only [Bool.and_eq_true, decide_eq_true_eq, List.all_eq_true]
      refine ⟨⟨⟨by rw [h, List.length_append, ha5]; simp [hb3], ?_⟩, ?_⟩, ?_⟩
      · rw [h, List.take_left' ha5]
        exact hda
      · rw [h, List.get?_append_right (le_of_eq ha5)]
        simp [ha5]
      · rw [h, show (6 : Nat) = 5 + 1 from rfl,
          ← List.drop_drop, List.drop_left' ha5]
        exact hdb

/-- Claim C6: `validatePhone(s)` is valid exactly when the digit-stripped
form of `s` has length 10 or 11, and the empty string fails with the
required-field message. -/
theorem validatePhone_spec (s : String) :
    ((validatePhone s).isValid = true ↔
      (stripDigits s).length = 10 ∨ (stripDigits s).length = 11) ∧
    validatePhone "" =
      { isValid := false, message := some "Telefone é obrigatório" } := by
  refine ⟨?_, rfl⟩
  rw [stripDigits_length]
  by_cases h : s = ""
  · subst h
    simp [validatePhone, stripDigitsL]
  · simp only [validatePhone, if_neg h]
    have hcond : ((stripDigitsL s.toList).length < 10 ||
        (stripDigitsL s.toList).length > 11) = true ↔
        ((stripDigitsL s.toList).length < 10 ∨
          11 < (stripDigitsL s.toList).length) := by
      simp [Bool.or_eq_true, decide_eq_true_eq]
    by_cases hlen : (stripDigitsL s.toList).length < 10 ∨
        11 < (stripDigitsL s.toList).length
    · rw [if_pos (hcond.mpr hlen)]
      constructor
      · intro hF
        exact absurd hF (by simp)
      · intro hor
        exact absurd hor (by omega)
    · rw [if_neg (fun hc => hlen (hcond.mp hc))]
      constructor
      · intro _
        omega
      · intro _
        rfl

/-- Claim C7: `validateCEP(s)` is valid if and only if `s` is empty or
matches the anchored five-digits, optional hyphen, three-digits pattern. -/
theorem validateCEP_spec (s : String) :
    (validateCEP s).isValid = true ↔ (s = "" ∨ cepSpecPattern s) := by
  unfold validateCEP
  by_cases h : s = ""
  · simp [h]
  · rw [if_neg h]
    by_cases ht : cepRegexTest s = true
    · rw [if_neg (by simp [ht])]
      exact iff_of_true rfl (Or.inr ((cepRegexTest_iff s).mp ht))
    · have hf : cepRegexTest s = false := by
        revert ht; cases cepRegexTest s <;> simp
      rw [if_pos (by simp [hf])]
      apply iff_of_false (by simp)
      rintro (h' | hp)
      · exact h h'
      · exact ht ((cepRegexTest_iff s).mpr hp)

/-- Claim C8: `formatPhone` is idempotent on every input whose
digit-stripped form has exactly 10 or 11 digits. -/
theorem formatPhone_idempotent (s : String)
    (h : (stripDigits s).length = 10 ∨ (stripDigits s).length = 11) :
    formatPhone (formatPhone s) = formatPhone s := by
  have hall : ∀ a ∈ stripDigitsL s.toList, a.isDigit = true :=
    stripDigitsL_all _
  rw [stripDigits_length] at h
  rcases h with h10 | h11
  · have hne : ¬ (stripDigitsL s.toList).length = 11 := by omega
    have e1 : formatPhone s = String.mk (phoneFormat10 (stripDigitsL s.toList)) := by
      unfold formatPhone
      rw [if_neg hne, if_pos h10]
    have hs : stripDigitsL (String.mk (phoneFormat10 (stripDigitsL s.toList))).toList
        = stripDigitsL s.toList := by
      rw [toList_mk]
      exact strip_phoneFormat10 hall
    rw [e1]
    unfold formatPhone
    rw [hs, if_neg hne, if_pos h10]
  · have e1 : formatPhone s = String.mk (phoneFormat11 (stripDigitsL s.toList)) := by
      unfold formatPhone
      rw [if_pos h11]
    have hs : stripDigitsL (String.mk (phoneFormat11 (stripDigitsL s.toList))).toList
        = stripDigitsL s.toList := by
      rw [toList_mk]
      exact strip_phoneFormat11 hall
    rw [e1]
    unfold formatPhone
    rw [hs, if_pos h11]

/-- Witness for C8 at the concrete 11-digit phone "11999998888". -/
theorem formatPhone_idempotent_witness :
    ((stripDigits "11999998888").length = 10 ∨
      (stripDigits "11999998888").length = 11) ∧
    formatPhone (formatPhone "11999998888") = formatPhone "11999998888" :=
  ⟨Or.inr (by decide),
    formatPhone_idempotent "11999998888" (Or.inr (by decide))⟩

/-- Claim C9: for an 8-character all-digit string, stripping the digits of
its `formatCEP` rendering gives the string back. -/
theorem formatCEP_roundtrip (d : String) (h8 : d.toList.length = 8)
    (hd : ∀ a ∈ d.toList, a.isDigit = true) :
    stripDigits (formatCEP d) = d := by
  have hs : stripDigitsL d.toList = d.toList := stripDigitsL_of_all hd
  have e1 : formatCEP d = String.mk (d.toList.take 5 ++ '-' :: d.toList.drop 5) := by
    unfold formatCEP
    rw [hs, if_pos h8]
  have h5t : ∀ a ∈ d.toList.take 5, a.isDigit = true :=
    fun a ha => hd a (List.mem_of_mem_take ha)
  have h5d : ∀ a ∈ d.toList.drop 5, a.isDigit = true :=
    fun a ha => hd a (List.mem_of_mem_drop ha)
  rw [e1]
  unfold stripDigits
  rw [toList_mk]
  unfold stripDigitsL
  rw [List.filter_append, List.filter_eq_self.mpr h5t,
    filter_digit_cons_nondigit (show ('-').isDigit = false from rfl),
    List.filter_eq_self.mpr h5d, List.take_append_drop]
  rfl

/-- Witness for C9 at the concrete 8-digit CEP "12345678". -/
theorem formatCEP_roundtrip_witness :
    (("12345678" : String).toList.length = 8 ∧
      (∀ a ∈ ("12345678" : String).toList, a.isDigit = true)) ∧
    stripDigits (formatCEP "12345678") = "12345678" :=
  ⟨⟨by decide, by decide⟩,
    formatCEP_roundtrip "12345678" (by decide) (by decide)⟩

/-- Claim C2: a successful registration against a store holding n rows
assigns identifier n + 1, appends exactly one row carrying the phone
formatted by `formatPhone` and the stamped registration date, and returns
success with the assigned identifier. -/
theorem registerCustomer_success_spec (store : List SheetRow)
    (data : CustomerRegistrationData) (today : String) :
    (registerCustomer store data today).1.success = true ∧
    (registerCustomer store data today).1.customerId = store.length + 1 ∧
    ∃ r : SheetRow,
      (registerCustomer store data today).2 = store ++ [r] ∧
      r.telefone = some (formatPhone data.phone) ∧
      r.dataRegistro = some today ∧
      r.id = some (toString (store.length + 1)) :=
  ⟨rfl, rfl, ⟨_, rfl, rfl, rfl, rfl⟩⟩

/-- Registration payload whose email fails `validateEmail` (used as the
concrete invalid input of the end-to-end scenario). -/
def invalidEmailData : CustomerRegistrationData :=
  { customerCode := "CUST000001", fullName := "Ana Silva",
    email := "not-an-email", phone := "11999998888", address := "",
    city := "", state := "", zipCode := "", acquisitionSource := "",
    serviceType := "", isCompleted := false, observations := "" }

/-- Counterexample to claim C1 as stated: `registerCustomer` re-invokes no
validator — fed a payload whose email fails `validateEmail`, it still
returns success and appends the row with the invalid email verbatim. -/
theorem registerCustomer_persists_invalid_email :
    (validateEmail invalidEmailData.email).isValid = false ∧
    (registerCustomer [] invalidEmailData "01/01/2025").1.success = true ∧
    (registerCustomer [] invalidEmailData "01/01/2025").2.length = 1 ∧
    (registerCustomer [] invalidEmailData "01/01/2025").2.map (fun r => r.email)
      = [some "not-an-email"] :=
  ⟨by decide, rfl, rfl, rfl⟩

/-- Claim C1 (amended): mandatory-field validation happens in the form
submit handler, client-side, before Register is invoked: when any of the
four validators fails, `handleSubmit` returns the per-field error map —
each failing validator's message — without calling `registerCustomer`, so
no row is appended. -/
theorem handleSubmit_rejects_invalid_form (store : List SheetRow)
    (form : CustomerFormData) (code today : String)
    (h : formIsValid form = false) :
    (handleSubmit true store form code today).1 = .invalidForm (formErrors form) ∧
    (handleSubmit true store form code today).2 = store ∧
    ((validateName form.fullName).isValid = false →
      (formErrors form).fullName = (validateName form.fullName).message) ∧
    ((validateEmail form.email).isValid = false →
      (formErrors form).email = (validateEmail form.email).message) ∧
    ((validatePhone form.phone).isValid = false →
      (formErrors form).phone = (validatePhone form.phone).message) ∧
    ((validateCEP form.zipCode).isValid = false →
      (formErrors form).zipCode = (validateCEP form.zipCode).message) := by
  refine ⟨by simp [handleSubmit, h], by simp [handleSubmit, h], ?_, ?_, ?_, ?_⟩
  · intro hv
    simp [formErrors, fieldError, hv]
  · intro hv
    simp [formErrors, fieldError, hv]
  · intro hv
    simp [formErrors, fieldError, hv]
  · intro hv
    simp [formErrors, fieldError, hv]

/-- Form state with an invalid email and all other validated fields fine. -/
def invalidEmailForm : CustomerFormData :=
  { fullName := "Ana Silva", email := "not-an-email", phone := "11999998888",
    address := "", city := "", state := "", zipCode := "",
    acquisitionSource := "", serviceType := "", isCompleted := false,
    observations := "" }

/-- Witness for the amended C1 at a concrete invalid form. -/
theorem handleSubmit_rejects_invalid_form_witness :
    formIsValid invalidEmailForm = false ∧
    (handleSubmit true [] invalidEmailForm "CUST000001" "01/01/2025").2 = [] :=
  ⟨by decide,
    (handleSubmit_rejects_invalid_form [] invalidEmailForm "CUST000001"
      "01/01/2025" (by decide)).2.1⟩

theorem getCustomersFrom_length (n : Nat) (store : List SheetRow) :
    (getCustomersFrom n store).length = store.length := by
  induction store generalizing n with
  | nil => rfl
  | cons r rs ih => simp [getCustomersFrom, ih]

theorem getCustomersFrom_get? (n : Nat) (store : List SheetRow) (i : Nat) :
    (getCustomersFrom n store).get? i =
      (store.get? i).map (fun r => reconstructRow (n + i) r) := by
  induction store generalizing n i with
  | nil => simp [getCustomersFrom]
  | cons r rs ih =>
      cases i with
      | zero => simp [getCustomersFrom]
      | succ j =>
          simp only [getCustomersFrom, List.get?_cons_succ, ih (n + 1) j]
          rw [show n + 1 + j = n + (j + 1) by omega]

/-- Claim C3 (amended): `getCustomers` reconstructs one record per row in
row order; the identifier falls back to position + 1 exactly when the ID
cell is absent, unparseable, or parses to the falsy number 0; the
completion flag is true exactly when the marker cell is the literal "S";
absent text cells default to the empty string. -/
theorem getCustomers_reconstruction_spec (store : List SheetRow) :
    (getCustomers store).length = store.length ∧
    ∀ i r, store.get? i = some r →
      ∃ c, (getCustomers store).get? i = some c ∧
        (jsParseIntCell r.id = none → c.id = (i : Int) + 1) ∧
        (jsParseIntCell r.id = some 0 → c.id = (i : Int) + 1) ∧
        (∀ n : Int, jsParseIntCell r.id = some n → n ≠ 0 → c.id = n) ∧
        (c.isCompleted = true ↔ r.realizado = some "S") ∧
        c.fullName = r.nome.getD "" ∧
        c.email = r.email.getD "" ∧
        c.phone = r.telefone.getD "" ∧
        c.customerCode = r.customerCode.getD "" ∧
        c.address = r.endereco.getD "" ∧
        c.city = r.cidade.getD "" ∧
        c.state = r.estado.getD "" ∧
        c.zipCode = r.cep.getD "" ∧
        c.acquisitionSource = r.fonteAquisicao.getD "" ∧
        c.serviceType = r.tipoServico.getD "" ∧
        c.observations = r.observacoes.getD "" ∧
        c.registrationDate = r.dataRegistro.getD "" := by
  refine ⟨getCustomersFrom_length 0 store, ?_⟩
  intro i r hr
  refine ⟨reconstructRow i r, ?_, ?_, ?_, ?_, ?_,
    rfl, rfl, rfl, rfl, rfl, rfl, rfl, rfl, rfl, rfl, rfl, rfl⟩
  · unfold getCustomers
    rw [getCustomersFrom_get? 0 store i, hr]
    simp
  · intro hn
    simp [reconstructRow, hn]
  · intro hn
    simp [reconstructRow, hn]
  · intro n hn hne
    simp [reconstructRow, hn, hne]
  · simp [reconstructRow]

/-- Row whose completion-marker cell holds "N". -/
def rowMarkedN : SheetRow := { blankRow with realizado := some "N" }

/-- Witness for the amended C3 at a one-row store marked "N". -/
theorem getCustomers_reconstruction_spec_witness :
    ∃ c, (getCustomers [rowMarkedN]).get? 0 = some c ∧
      (c.isCompleted = true ↔ rowMarkedN.realizado = some "S") := by
  obtain ⟨c, hc, _, _, _, hcomp, _⟩ :=
    (getCustomers_reconstruction_spec [rowMarkedN]).2 0 rowMarkedN rfl
  exact ⟨c, hc, hcomp⟩

/-- Row whose ID cell holds the parseable string "0". -/
def rowZeroId : SheetRow := { blankRow with id := some "0" }

/-- Counterexample to claim C3 as stated: the ID cell "0" parses to the
number 0, yet the reconstructed identifier is the positional default 1
(JavaScript treats 0 as falsy), so the identifier defaults on an input
that is neither absent nor unparseable. -/
theorem getCustomers_zero_id_defaults :
    jsParseIntCell rowZeroId.id = some 0 ∧
    (getCustomers [rowZeroId]).map (fun c => c.id) = [1] :=
  ⟨by decide, by decide⟩

theorem pMatch_true {id : Int} {r : SheetRow} :
    pMatch id r = true ↔ jsParseIntCell r.id = some id := by
  simp [pMatch]

theorem pMatch_false {id : Int} {r : SheetRow} :
    pMatch id r = false ↔ jsParseIntCell r.id ≠ some id := by
  rw [← Bool.not_eq_true, not_iff_not]
  exact pMatch_true

theorem find?_none_of_no_match {store : List SheetRow} {id : Int}
    (h : ∀ r ∈ store, jsParseIntCell r.id ≠ some id) :
    store.find? (pMatch id) = none :=
  List.find?_eq_none.mpr (fun r hr hp => h r hr (pMatch_true.mp hp))

theorem find?_append_cons {α : Type} {p : α → Bool} {pre : List α} {row : α}
    {post : List α} (hpre : ∀ r ∈ pre, p r = false) (hrow : p row = true) :
    (pre ++ row :: post).find? p = some row := by
  induction pre with
  | nil => simp [List.find?_cons_of_pos _ hrow]
  | cons x xs ih =>
      have hx : p x = false := hpre x (by simp)
      rw [List.cons_append, List.find?_cons_of_neg _ (by simp [hx])]
      exact ih (fun r hr => hpre r (by simp [hr]))

theorem updateFirst_append {α : Type} {p : α → Bool} (f : α → α)
    {pre : List α} {row : α} {post : List α}
    (hpre : ∀ r ∈ pre, p r = false) (hrow : p row = true) :
    updateFirst p f (pre ++ row :: post) = pre ++ f row :: post := by
  induction pre with
  | nil => simp [updateFirst, hrow]
  | cons x xs ih =>
      have hx : p x = false := hpre x (by simp)
      simp only [List.cons_append, updateFirst, hx, Bool.false_eq_true,
        if_false, List.append_eq]
      rw [ih (fun r hr => hpre r (by simp [hr]))]

theorem removeFirst_append {α : Type} {p : α → Bool}
    {pre : List α} {row : α} {post : List α}
    (hpre : ∀ r ∈ pre, p r = false) (hrow : p row = true) :
    removeFirst p (pre ++ row :: post) = pre ++ post := by
  induction pre with
  | nil => simp [removeFirst, hrow]
  | cons x xs ih =>
      have hx : p x = false := hpre x (by simp)
      simp only [List.cons_append, removeFirst, hx, Bool.false_eq_true,
        if_false, List.append_eq]
      rw [ih (fun r hr => hpre r (by simp [hr]))]

/-- Claim C4 (amended): Update fails atomically with "not found" when no
row's ID parses to the target id; when a matching row exists (the first
one), every field present in the partial data EXCEPT the customer code
overwrites its column, with the phone re-formatted by `formatPhone`; the
customer-code, ID and registration-date columns are never written. -/
theorem updateCustomer_spec (store : List SheetRow) (id : Int)
    (data : PartialCustomerData) :
    ((∀ r ∈ store, jsParseIntCell r.id ≠ some id) →
      (updateCustomer store id data).1 =
        { success := false, message := "Falha ao atualizar cliente",
          error := some "Cliente não encontrado" } ∧
      (updateCustomer store id data).2 = store) ∧
    (∀ pre row post, store = pre ++ row :: post →
      (∀ r ∈ pre, jsParseIntCell r.id ≠ some id) →
      jsParseIntCell row.id = some id →
      (updateCustomer store id data).1 =
        { success := true, message := "Cliente atualizado com sucesso!",
          error := none } ∧
      (updateCustomer store id data).2 = pre ++ applyUpdate data row :: post ∧
      (applyUpdate data row).nome =
        (match data.fullName with | some v => some v | none => row.nome) ∧
      (applyUpdate data row).email =
        (match data.email with | some v => some v | none => row.email) ∧
      (applyUpdate data row).telefone =
        (match data.phone with
          | some v => some (formatPhone v) | none => row.telefone) ∧
      (applyUpdate data row).endereco =
        (match data.address with | some v => some v | none => row.endereco) ∧
      (applyUpdate data row).cidade =
        (match data.city with | some v => some v | none => row.cidade) ∧
      (applyUpdate data row).estado =
        (match data.state with | some v => some v | none => row.estado) ∧
      (applyUpdate data row).cep =
        (match data.zipCode with | some v => some v | none => row.cep) ∧
      (applyUpdate data row).fonteAquisicao =
        (match data.acquisitionSource with
          | some v => some v | none => row.fonteAquisicao) ∧
      (applyUpdate data row).tipoServico =
        (match data.serviceType with
          | some v => some v | none => row.tipoServico) ∧
      (applyUpdate data row).realizado =
        (match data.isCompleted with
          | some b => some (if b then "S" else "N") | none => row.realizado) ∧
      (applyUpdate data row).observacoes =
        (match data.observations with
          | some v => some v | none => row.observacoes) ∧
      (applyUpdate data row).customerCode = row.customerCode ∧
      (applyUpdate data row).id = row.id ∧
      (applyUpdate data row).dataRegistro = row.dataRegistro) := by
  constructor
  · intro hnone
    unfold updateCustomer
    rw [find?_none_of_no_match hnone]
    exact ⟨rfl, rfl⟩
  · intro pre row post hdec hpre hrow
    subst hdec
    have hpref : ∀ r ∈ pre, pMatch id r = false :=
      fun r hr => pMatch_false.mpr (hpre r hr)
    have hrowt : pMatch id row = true := pMatch_true.mpr hrow
    unfold updateCustomer
    rw [find?_append_cons hpref hrowt,
      updateFirst_append (applyUpdate data) hpref hrowt]
    exact ⟨rfl, rfl, rfl, rfl, rfl, rfl, rfl, rfl, rfl, rfl, rfl, rfl, rfl,
      rfl, rfl, rfl⟩

/-- A stored row with ID "1" and an existing customer code. -/
def rowWithCode : SheetRow :=
  { blankRow with id := some "1", customerCode := some "CUSTOLD" }

/-- Partial update carrying only a customer-code value. -/
def ccOnlyUpdate : PartialCustomerData := { customerCode := some "CUSTNEW" }

/-- Counterexample to claim C4 as stated: the partial data carries a
customer-code value and the target row exists; the update reports success,
yet the customer-code column keeps its old value — a present field whose
column is not overwritten (the code has no `set` for it). -/
theorem updateCustomer_ignores_customerCode :
    ccOnlyUpdate.customerCode = some "CUSTNEW" ∧
    (updateCustomer [rowWithCode] 1 ccOnlyUpdate).1.success = true ∧
    (updateCustomer [rowWithCode] 1 ccOnlyUpdate).2 = [rowWithCode] ∧
    rowWithCode.customerCode = some "CUSTOLD" :=
  ⟨rfl, by decide, by decide, rfl⟩

/-- Partial update carrying only a phone value. -/
def phoneOnlyUpdate : PartialCustomerData := { phone := some "1144445555" }

/-- Witness for the amended C4: the not-found branch at id 7 against a
store whose only row has ID "1" leaves the store untouched. -/
theorem updateCustomer_spec_witness :
    (∀ r ∈ [rowWithCode], jsParseIntCell r.id ≠ some 7) ∧
    (updateCustomer [rowWithCode] 7 phoneOnlyUpdate).2 = [rowWithCode] :=
  ⟨by decide,
    ((updateCustomer_spec [rowWithCode] 7 phoneOnlyUpdate).1 (by decide)).2⟩

/-- Claim C5: Delete fails with "not found" exactly when no row's ID cell
parses to the id (leaving the store untouched); otherwise it removes
exactly one row — the first matching one — and the success message carries
that row's stored full name. -/
theorem deleteCustomer_spec (store : List SheetRow) (id : Int) :
    ((deleteCustomer store id).1.success = false ↔
      ∀ r ∈ store, jsParseIntCell r.id ≠ some id) ∧
    ((∀ r ∈ store, jsParseIntCell r.id ≠ some id) →
      (deleteCustomer store id).1.error = some "Cliente não encontrado" ∧
      (deleteCustomer store id).2 = store) ∧
    (∀ pre row post, store = pre ++ row :: post →
      (∀ r ∈ pre, jsParseIntCell r.id ≠ some id) →
      jsParseIntCell row.id = some id →
      (deleteCustomer store id).1.success = true ∧
      (deleteCustomer store id).2 = pre ++ post ∧
      (deleteCustomer store id).2.length + 1 = store.length ∧
      ∀ n, row.nome = some n →
        (deleteCustomer store id).1.message =
          "Cliente " ++ n ++ " excluído com sucesso!") := by
  refine ⟨?_, ?_, ?_⟩
  · cases hf : store.find? (pMatch id) with
    | none =>
        unfold deleteCustomer
        rw [hf]
        exact iff_of_true rfl
          (fun r hr hp => (List.find?_eq_none.mp hf) r hr (pMatch_true.mpr hp))
    | some row =>
        unfold deleteCustomer
        rw [hf]
        apply iff_of_false (by simp)
        intro hall
        have hmem : row ∈ store := List.mem_of_find?_eq_some hf
        have hp : pMatch id row = true := List.find?_some hf
        exact hall row hmem (pMatch_true.mp hp)
  · intro hnone
    unfold deleteCustomer
    rw [find?_none_of_no_match hnone]
    exact ⟨rfl, rfl⟩
  · intro pre row post hdec hpre hrow
    subst hdec
    have hpref : ∀ r ∈ pre, pMatch id r = false :=
      fun r hr => pMatch_false.mpr (hpre r hr)
    have hrowt : pMatch id row = true := pMatch_true.mpr hrow
    unfold deleteCustomer
    rw [find?_append_cons hpref hrowt, removeFirst_append hpref hrowt]
    refine ⟨rfl, rfl, ?_, ?_⟩
    · simp [List.length_append]
      omega
    · intro n hn
      simp [hn]

/-- A stored row with ID "3" and a stored name. -/
def rowId3 : SheetRow :=
  { blankRow with id := some "3", nome := some "Maria" }

/-- Witness for C5: deleting id 3 from a one-row store removes the row and
echoes the stored name. -/
theorem deleteCustomer_spec_witness :
    (deleteCustomer [rowId3] 3).2 = [] ∧
    (deleteCustomer [rowId3] 3).1.message =
      "Cliente Maria excluído com sucesso!" := by
  obtain ⟨_, h2, _, h4⟩ :=
    (deleteCustomer_spec [rowId3] 3).2.2 [] rowId3 [] rfl (by simp) (by decide)
  exact ⟨h2, h4 "Maria" rfl⟩

/-- Claim C10: Update performs no field validation: a name or email value
rejected by its validator is still persisted verbatim to the located row,
and only the phone field is transformed (via `formatPhone`) before the
write. -/
theorem updateCustomer_no_validation (store : List SheetRow) (id : Int)
    (data : PartialCustomerData) (pre : List SheetRow) (row : SheetRow)
    (post : List SheetRow) (hdec : store = pre ++ row :: post)
    (hpre : ∀ r ∈ pre, jsParseIntCell r.id ≠ some id)
    (hrow : jsParseIntCell row.id = some id) :
    (updateCustomer store id data).1.success = true ∧
    (updateCustomer store id data).2 = pre ++ applyUpdate data row :: post ∧
    (∀ e, data.email = some e → (validateEmail e).isValid = false →
      (applyUpdate data row).email = some e) ∧
    (∀ nm, data.fullName = some nm → (validateName nm).isValid = false →
      (applyUpdate data row).nome = some nm) ∧
    (∀ ph, data.phone = some ph →
      (applyUpdate data row).telefone = some (formatPhone ph)) := by
  subst hdec
  have hpref : ∀ r ∈ pre, pMatch id r = false :=
    fun r hr => pMatch_false.mpr (hpre r hr)
  have hrowt : pMatch id row = true := pMatch_true.mpr hrow
  unfold updateCustomer
  rw [find?_append_cons hpref hrowt,
    updateFirst_append (applyUpdate data) hpref hrowt]
  refine ⟨rfl, rfl, ?_, ?_, ?_⟩
  · intro e he _
    simp [applyUpdate, he]
  · intro nm hn _
    simp [applyUpdate, hn]
  · intro ph hp
    simp [applyUpdate, hp]

/-- Partial update carrying an email that fails `validateEmail` and a name
that fails `validateName`. -/
def badFieldsUpdate : PartialCustomerData :=
  { email := some "sem-arroba", fullName := some "X" }

/-- Witness for C10: updating the row with ID "1" with a validator-rejected
email persists it verbatim. -/
theorem updateCustomer_no_validation_witness :
    (validateEmail "sem-arroba").isValid = false ∧
    (updateCustomer [rowWithCode] 1 badFieldsUpdate).2.map (fun r => r.email)
      = [some "sem-arroba"] := by
  obtain ⟨_, hst, hem, _, _⟩ :=
    updateCustomer_no_validation [rowWithCode] 1 badFieldsUpdate [] rowWithCode
      [] rfl (by simp) (by decide)
  refine ⟨by decide, ?_⟩
  rw [hst]
  simp [hem "sem-arroba" rfl (by decide)]

end ContactSheets
